import Mathlib

/-!
Verification of the Telegram image bot (`telegram_image_bot.py`): a shallow
embedding of its membership store, authorization gate, completion client and
message handlers, with theorems about the spec's claimed properties.

Conventions of the embedding:
* SQLite storage is modelled by an explicit `DBState` (the `users` table and
  the append-only `logs` table).  Each database operation takes a Boolean
  `ok` flag: `ok = true` models a run where the underlying storage engine
  succeeds, `ok = false` a run where it raises; the Python `except` branches
  then determine the returned value (`Except.error` for re-raised failures,
  a default for swallowed ones).
* Handlers are total functions from their inputs to the final `DBState` and
  the ordered list of outward effects (chat replies, outbound completion
  requests).  Python exceptions that the handler catches are part of the
  function's value, so "does not crash" is totality of the Lean function.
* The upstream HTTP exchange is modelled by an `HttpResponse` value handed to
  the handler: the request payload actually sent is recorded as an
  `openaiRequest` effect, and the response parsing is a pure function of the
  `HttpResponse`.
-/

/-- One row of the `users` table:
`users(telegram_id INTEGER PRIMARY KEY, username TEXT, added_at TIMESTAMP)`. -/
structure Member where
  telegram_id : Int
  username : Option String
  added_at : Nat
deriving Repr, DecidableEq

/-- One row of the `logs` table (the append-only audit trail):
`logs(id AUTOINCREMENT, telegram_id INTEGER, action TEXT, created_at ...)`. -/
structure LogEntry where
  telegram_id : Int
  action : String
deriving Repr, DecidableEq

/-- The persistent state of the SQLite database: both tables. -/
structure DBState where
  users : List Member
  logs : List LogEntry
deriving Repr, DecidableEq

/-- Whether a `users` row with the given `telegram_id` exists
(`SELECT 1 FROM users WHERE telegram_id = ?`). -/
def usersContains (users : List Member) (tid : Int) : Bool :=
  users.any (fun m => m.telegram_id == tid)

/-- Number of `users` rows with the given `telegram_id`.  The column is a
primary key, so a correct table has count 0 or 1. -/
def countId (users : List Member) (tid : Int) : Nat :=
  (users.filter (fun m => m.telegram_id == tid)).length

namespace DB

/-- `DB.add_user`: `INSERT OR IGNORE INTO users(telegram_id, username)` then
`INSERT INTO logs(telegram_id, action) VALUES(?, 'add')`, committed together.
A storage failure is re-raised (`except ... raise`), modelled as
`Except.error` with the transaction not committed. -/
def add_user (ok : Bool) (st : DBState) (telegram_id : Int)
    (username : Option String) (now : Nat) : Except String DBState :=
  if ok then
    let users2 :=
      if usersContains st.users telegram_id then st.users
      else st.users ++ [⟨telegram_id, username, now⟩]
    Except.ok ⟨users2, st.logs ++ [⟨telegram_id, "add"⟩]⟩
  else Except.error "StorageError"

/-- `DB.remove_user`: `DELETE FROM users WHERE telegram_id = ?` then an
`INSERT INTO logs(..., 'remove')`, committed together.  A storage failure is
re-raised, modelled as `Except.error`. -/
def remove_user (ok : Bool) (st : DBState) (telegram_id : Int) :
    Except String DBState :=
  if ok then
    Except.ok ⟨st.users.filter (fun m => m.telegram_id != telegram_id),
               st.logs ++ [⟨telegram_id, "remove"⟩]⟩
  else Except.error "StorageError"

/-- `DB.is_allowed`: `SELECT 1 FROM users WHERE telegram_id = ?`, returning
`bool(row)`; any exception is caught and `False` is returned (fail-closed). -/
def is_allowed (ok : Bool) (st : DBState) (telegram_id : Int) : Bool :=
  if ok then usersContains st.users telegram_id
  else false

/-- Insertion step for the `ORDER BY added_at DESC` result order. -/
def insertByAddedDesc (m : Member) : List Member → List Member
  | [] => [m]
  | x :: xs =>
    if x.added_at ≤ m.added_at then m :: x :: xs
    else x :: insertByAddedDesc m xs

/-- Insertion sort realising `ORDER BY added_at DESC`. -/
def sortByAddedDesc : List Member → List Member
  | [] => []
  | x :: xs => insertByAddedDesc x (sortByAddedDesc xs)

/-- `DB.list_users`: `SELECT telegram_id, username, added_at FROM users ORDER
BY added_at DESC`; any exception is caught and the empty list is returned. -/
def list_users (ok : Bool) (st : DBState) : List Member :=
  if ok then sortByAddedDesc st.users
  else []

end DB

/-- The authorization levels the dispatch code distinguishes. -/
inductive AuthLevel
  | ADMIN
  | ALLOWED
  | DENIED
deriving Repr, DecidableEq

/-- The authorization decision as computed by `start_handler`
(`is_admin = (uid == ADMIN_TELEGRAM_ID)`;
`is_allowed = db.is_allowed(uid) or is_admin`; the admin branch is tested
first, then the allowed branch, else denied). -/
def authorize (ok : Bool) (st : DBState) (admin uid : Int) : AuthLevel :=
  let is_admin := uid == admin
  let is_allowed := DB.is_allowed ok st uid || is_admin
  if is_admin then AuthLevel.ADMIN
  else if is_allowed then AuthLevel.ALLOWED
  else AuthLevel.DENIED

/-- One typed part of a chat-completion message content list. -/
inductive ContentPart
  | text (s : String)
  | image_url (url : String)
  | other (ty : String)
deriving Repr, DecidableEq

/-- The value of `j["choices"][0].get("message", ...).get("content")`:
a plain string, a list of typed parts, or absent/null. -/
inductive MsgContent
  | str (s : String)
  | parts (ps : List ContentPart)
  | absent
deriving Repr, DecidableEq

/-- One element of the response's `choices` array. -/
structure Choice where
  content : MsgContent
deriving Repr, DecidableEq

/-- The decoded JSON body of a completion response.  `raw` is the Python
`str(j)` rendering used by the fallback branches. -/
structure CompletionJson where
  choices : List Choice
  raw : String
deriving Repr, DecidableEq

instance {ε α : Type} [DecidableEq ε] [DecidableEq α] :
    DecidableEq (Except ε α) := fun a b =>
  match a, b with
  | Except.ok x, Except.ok y =>
    if h : x = y then isTrue (by rw [h])
    else isFalse (by intro hc; injection hc; contradiction)
  | Except.error x, Except.error y =>
    if h : x = y then isTrue (by rw [h])
    else isFalse (by intro hc; injection hc; contradiction)
  | Except.ok _, Except.error _ => isFalse (by intro hc; injection hc)
  | Except.error _, Except.ok _ => isFalse (by intro hc; injection hc)

/-- An upstream HTTP exchange as seen by the handler: the status, the body
text, and the result of JSON-decoding the body (`Except.error e` models a
raised decode error with message `e`). -/
structure HttpResponse where
  status : Nat
  bodyText : String
  bodyJson : Except String CompletionJson
deriving Repr, DecidableEq

/-- The `content` field of the single user message in a request payload. -/
inductive PayloadContent
  | str (s : String)
  | parts (ps : List ContentPart)
deriving Repr, DecidableEq

/-- The JSON body POSTed to the completions URL.  Optional fields are `none`
when the corresponding key is absent from the Python dict literal. -/
structure OpenAIPayload where
  model : String
  content : PayloadContent
  max_completion_tokens : Option Nat
  reasoning_effort : Option String
  temperature : Option Nat
deriving Repr, DecidableEq

/-- The payload built by `query_openai_with_image`: a text part holding the
prompt and an `image_url` part holding the PNG-labelled data URI, with
`max_completion_tokens: 10000`, `reasoning_effort: "high"`,
`temperature: 1`. -/
def image_payload (model b64 prompt : String) : OpenAIPayload :=
  { model := model
    content := PayloadContent.parts
      [ContentPart.text prompt,
       ContentPart.image_url ("data:image/png;base64," ++ b64)]
    max_completion_tokens := some 10000
    reasoning_effort := some "high"
    temperature := some 1 }

/-- The payload built inline by `text_handler`: plain-string content with
`reasoning_effort: "high"` and `max_completion_tokens: 10000`; the dict
literal there has no `temperature` key. -/
def text_payload (model user_text : String) : OpenAIPayload :=
  { model := model
    content := PayloadContent.str user_text
    max_completion_tokens := some 10000
    reasoning_effort := some "high"
    temperature := none }

/-- Return value of `query_openai_with_image` as a function of the response:
non-200 statuses yield the error string with the status and the first 200
characters of the body; a JSON decode failure is caught by the blanket
`except` and turned into a reply; otherwise the first choice's content is
returned when it is a plain string, and `str(j)` in every other case. -/
def query_openai_with_image (resp : HttpResponse) : String :=
  if resp.status != 200 then
    "Ошибка от OpenAI: " ++ toString resp.status ++
      ". Смотрите логи. Ответ: " ++ resp.bodyText.take 200
  else
    match resp.bodyJson with
    | Except.error e => "Ошибка при обращении к OpenAI: " ++ e
    | Except.ok j =>
      match j.choices with
      | c :: _ =>
        match c.content with
        | MsgContent.str s => s
        | _ => j.raw
      | [] => j.raw

/-- Modelled from the spec (§4.3, not present in this revision's code): the
behaviour the spec describes for list-shaped content — concatenate the text
of every part whose type is "text", joined by newlines, skipping non-text
parts.  Used only to compare the implementation against the spec's words. -/
def spec_join_text_parts (ps : List ContentPart) : String :=
  String.intercalate "\n"
    (ps.filterMap (fun p =>
      match p with
      | ContentPart.text s => some s
      | _ => none))

/-- An outward effect of a handler: a chat reply or an outbound request to
the completions endpoint. -/
inductive BotEvent
  | reply (text : String)
  | openaiRequest (payload : OpenAIPayload)
deriving Repr, DecidableEq

/-- The unauthorized-reply text shared by `photo_handler` and
`text_handler`. -/
def unauthorizedMsg : String :=
  "❌ <b>Вы не авторизованы для использования бота.</b>\n\n" ++
  "Обратитесь к администратору для получения доступа."

/-- Effects of `photo_handler` past its gate, on the run where download and
encoding succeed: the progress reply, the outbound image request built from
the caption (defaulted to the generic describe prompt when absent), and the
reply carrying the parsed completion result. -/
def photo_authorized_flow (model : String) (caption : Option String)
    (b64 : String) (resp : HttpResponse) : List BotEvent :=
  let cap := caption.getD "Опишите изображение."
  [BotEvent.reply "🔄 Принял изображение, обрабатываю...",
   BotEvent.openaiRequest (image_payload model b64 cap),
   BotEvent.reply ("✅ <b>Результат анализа:</b>\n\n" ++
     query_openai_with_image resp)]

/-- `photo_handler`: the gate `if not db.is_allowed(uid) and uid !=
ADMIN_TELEGRAM_ID` replies the unauthorized message and returns; otherwise
the authorized flow runs. -/
def photo_handler_events (ok : Bool) (st : DBState) (admin uid : Int)
    (model : String) (caption : Option String) (b64 : String)
    (resp : HttpResponse) : List BotEvent :=
  if !DB.is_allowed ok st uid && uid != admin then
    [BotEvent.reply unauthorizedMsg]
  else
    photo_authorized_flow model caption b64 resp

/-- The reply `text_handler` produces from the upstream response: a decode
failure is caught by the blanket `except` (reply with the error text);
plain-string content of the first choice is sent as the answer; every other
shape falls through to `reply_text(str(j))`. -/
def text_reply_for (resp : HttpResponse) : String :=
  match resp.bodyJson with
  | Except.error e => "❌ <b>Ошибка от OpenAI:</b>\n\n" ++ e
  | Except.ok j =>
    match j.choices with
    | c :: _ =>
      match c.content with
      | MsgContent.str s => "✅ <b>Ответ:</b>\n\n" ++ s
      | _ => j.raw
    | [] => j.raw

/-- Effects of `text_handler` past its gate: the progress reply, the
outbound text-only request, and the reply derived from the response. -/
def text_authorized_flow (model user_text : String) (resp : HttpResponse) :
    List BotEvent :=
  [BotEvent.reply "🔄 Запрос отправлен в OpenAI, ждите...",
   BotEvent.openaiRequest (text_payload model user_text),
   BotEvent.reply (text_reply_for resp)]

/-- `text_handler`: same gate as `photo_handler`, then the text flow. -/
def text_handler_events (ok : Bool) (st : DBState) (admin uid : Int)
    (model user_text : String) (resp : HttpResponse) : List BotEvent :=
  if !DB.is_allowed ok st uid && uid != admin then
    [BotEvent.reply unauthorizedMsg]
  else
    text_authorized_flow model user_text resp

/-- Drop leading whitespace characters from a character list. -/
def dropLeadingSpaces : List Char → List Char
  | [] => []
  | c :: cs => if c.isWhitespace then dropLeadingSpaces cs else c :: cs

/-- Read a non-empty all-digit character list as a natural number. -/
def digitsToNat (cs : List Char) : Option Nat :=
  if cs.isEmpty then none else go cs 0
where
  /-- Accumulating digit loop; any non-digit character fails the parse. -/
  go : List Char → Nat → Option Nat
  | [], acc => some acc
  | c :: rest, acc =>
    if c.isDigit then go rest (acc * 10 + (c.toNat - '0'.toNat))
    else none

/-- Model of Python `int(s)` applied to a command argument: surrounding
whitespace is stripped, an optional single sign is accepted, and the rest
must be one or more decimal digits (digit-group underscores are not
modelled; no argument in the claims uses them). -/
def pyParseInt (s : String) : Option Int :=
  let t := (dropLeadingSpaces (dropLeadingSpaces s.data.reverse).reverse)
  match t with
  | '-' :: rest => (digitsToNat rest).map (fun n => -(n : Int))
  | '+' :: rest => (digitsToNat rest).map (fun n => (n : Int))
  | rest => (digitsToNat rest).map (fun n => (n : Int))

/-- Result of a command handler: the database state after the handler and
the chat replies it sent, in order. -/
structure HandlerOut where
  st : DBState
  replies : List String
deriving Repr, DecidableEq

/-- Reply when a non-admin invokes an admin-only command. -/
def adminOnlyMsg : String := "❌ Эта команда доступна только администратору."

/-- Format-error reply of `/add` (argument count not exactly one). -/
def addFormatMsg : String :=
  "⚠️ <b>Неверный формат команды!</b>\n\n" ++
  "Используйте: <code>/add telegram_id</code>\n" ++
  "Пример: <code>/add 123456789</code>"

/-- Reply of `/add` when the argument is not an integer (`ValueError`). -/
def addValueErrMsg : String :=
  "❌ <b>Ошибка!</b>\n\n" ++
  "Telegram ID должен быть числом.\n" ++
  "Пример: <code>/add 123456789</code>"

/-- Success reply of `/add`. -/
def addSuccessMsg (target : Int) : String :=
  "✅ <b>Пользователь добавлен!</b>\n\n" ++
  "🆔 Telegram ID: <code>" ++ toString target ++ "</code>"

/-- Reply of `/add` when the store raises (caught `Exception` branch). -/
def addStorageErrMsg (e : String) : String :=
  "❌ Ошибка при добавлении пользователя: " ++ e

/-- Format-error reply of `/remove`. -/
def removeFormatMsg : String :=
  "⚠️ <b>Неверный формат команды!</b>\n\n" ++
  "Используйте: <code>/remove telegram_id</code>\n" ++
  "Пример: <code>/remove 123456789</code>"

/-- Reply of `/remove` when the argument is not an integer. -/
def removeValueErrMsg : String :=
  "❌ <b>Ошибка!</b>\n\n" ++
  "Telegram ID должен быть числом.\n" ++
  "Пример: <code>/remove 123456789</code>"

/-- Success reply of `/remove`. -/
def removeSuccessMsg (target : Int) : String :=
  "✅ <b>Пользователь удалён!</b>\n\n" ++
  "🆔 Telegram ID: <code>" ++ toString target ++ "</code>"

/-- Reply of `/remove` when the store raises. -/
def removeStorageErrMsg (e : String) : String :=
  "❌ Ошибка при удалении пользователя: " ++ e

/-- The part of `add_user_handler` past its admin gate: `not context.args or
len(context.args) != 1` format check, `int(args[0])` with a `ValueError`
reply, then `db.add_user(target_id, None)` — the username stored is always
`None` — with the `Exception` branch replying the storage error. -/
def add_user_body (ok : Bool) (st : DBState) (args : List String)
    (now : Nat) : HandlerOut :=
  if args.length != 1 then ⟨st, [addFormatMsg]⟩
  else
    match pyParseInt (args.headD "") with
    | none => ⟨st, [addValueErrMsg]⟩
    | some target =>
      match DB.add_user ok st target none now with
      | Except.ok st2 => ⟨st2, [addSuccessMsg target]⟩
      | Except.error e => ⟨st, [addStorageErrMsg e]⟩

/-- `add_user_handler`: the `uid != ADMIN_TELEGRAM_ID` gate replies the
admin-only message and returns; otherwise the body runs. -/
def add_user_handler (ok : Bool) (st : DBState) (admin uid : Int)
    (args : List String) (now : Nat) : HandlerOut :=
  if uid != admin then ⟨st, [adminOnlyMsg]⟩
  else add_user_body ok st args now

/-- The part of `remove_user_handler` past its admin gate: argument-count
check, `int(args[0])` with a `ValueError` reply, then
`db.remove_user(target_id)` with the `Exception` branch replying the
storage error. -/
def remove_user_body (ok : Bool) (st : DBState) (args : List String) :
    HandlerOut :=
  if args.length != 1 then ⟨st, [removeFormatMsg]⟩
  else
    match pyParseInt (args.headD "") with
    | none => ⟨st, [removeValueErrMsg]⟩
    | some target =>
      match DB.remove_user ok st target with
      | Except.ok st2 => ⟨st2, [removeSuccessMsg target]⟩
      | Except.error e => ⟨st, [removeStorageErrMsg e]⟩

/-- `remove_user_handler`: admin gate, then the body. -/
def remove_user_handler (ok : Bool) (st : DBState) (admin uid : Int)
    (args : List String) : HandlerOut :=
  if uid != admin then ⟨st, [adminOnlyMsg]⟩
  else remove_user_body ok st args

/-- Reply of `/list` when the user list is empty. -/
def emptyListMsg : String := "📭 <b>Список пользователей пуст.</b>"

/-- One numbered entry of the `/list` report. -/
def listEntry (i : Nat) (m : Member) : String :=
  let username_display :=
    match m.username with
    | some u => "@" ++ u
    | none => "не указан"
  toString i ++ ". 🆔 <code>" ++ toString m.telegram_id ++ "</code>\n" ++
    "   👤 " ++ username_display ++ "\n" ++
    "   📅 Добавлен: " ++ toString m.added_at ++ "\n\n"

/-- The `/list` report text built by the `enumerate(rows, 1)` loop. -/
def formatUserList (rows : List Member) : String :=
  "👥 <b>Список разрешённых пользователей:</b>\n\n" ++
    String.join ((List.enumFrom 1 rows).map (fun p => listEntry p.1 p.2)) ++
    "<b>Всего пользователей:</b> " ++ toString rows.length

/-- The `/list` replies past the admin gate. -/
def list_authorized_flow (ok : Bool) (st : DBState) : List String :=
  let rows := DB.list_users ok st
  if rows.isEmpty then [emptyListMsg] else [formatUserList rows]

/-- `list_users_handler`: admin gate, then `db.list_users()` formatted as a
numbered report (or the empty-list reply). -/
def list_users_handler (ok : Bool) (st : DBState) (admin uid : Int) :
    List String :=
  if uid != admin then [adminOnlyMsg]
  else list_authorized_flow ok st

/-! Helper lemmas shared by the membership-store theorems. -/

theorem usersContains_false_iff {l : List Member} {tid : Int} :
    usersContains l tid = false ↔
      ∀ m ∈ l, (m.telegram_id == tid) = false := by
  simp [usersContains, List.any_eq_true]

theorem filter_id_nil_of_not_contains {l : List Member} {tid : Int}
    (h : usersContains l tid = false) :
    l.filter (fun m => m.telegram_id == tid) = [] := by
  rw [List.filter_eq_nil_iff]
  intro m hm
  have hme := usersContains_false_iff.mp h m hm
  simp [hme]

theorem filter_ne_self_of_not_contains {l : List Member} {tid : Int}
    (h : usersContains l tid = false) :
    l.filter (fun m => m.telegram_id != tid) = l := by
  rw [List.filter_eq_self]
  intro m hm
  have hme := usersContains_false_iff.mp h m hm
  simp [bne, hme]

theorem str_append_assoc (a b c : String) : a ++ b ++ c = a ++ (b ++ c) := by
  apply String.ext
  simp [String.data_append, List.append_assoc]

/-- C1: a caller whose identity equals the fixed administrator identity is
authorized as ADMIN for every membership state and every storage outcome —
the gate of `photo_handler` and `text_handler` lets the admin through to
the completion flow, and the `/add`, `/remove` and `/list` handlers run
their bodies — so the membership check is never used to deny the
administrator, even when the admin has no row in the users table or the
check itself fails. -/
theorem admin_always_fully_authorized (ok : Bool) (st : DBState)
    (admin : Int) (model : String) (caption : Option String)
    (b64 user_text : String) (resp : HttpResponse) (args : List String)
    (now : Nat) :
    authorize ok st admin admin = AuthLevel.ADMIN ∧
    photo_handler_events ok st admin admin model caption b64 resp =
      photo_authorized_flow model caption b64 resp ∧
    text_handler_events ok st admin admin model user_text resp =
      text_authorized_flow model user_text resp ∧
    add_user_handler ok st admin admin args now =
      add_user_body ok st args now ∧
    remove_user_handler ok st admin admin args =
      remove_user_body ok st args ∧
    list_users_handler ok st admin admin = list_authorized_flow ok st := by
  refine ⟨?_, ?_, ?_, ?_, ?_, ?_⟩ <;>
    simp [authorize, photo_handler_events, text_handler_events,
      add_user_handler, remove_user_handler, list_users_handler]

/-- C2: a DENIED caller (neither the administrator nor present in the users
table) sending a photo or a text message gets exactly the unauthorized
reply, and neither handler emits a request to the completion endpoint. -/
theorem denied_caller_never_calls_completion (ok : Bool) (st : DBState)
    (admin uid : Int) (model : String) (caption : Option String)
    (b64 user_text : String) (resp : HttpResponse)
    (h : authorize ok st admin uid = AuthLevel.DENIED) :
    photo_handler_events ok st admin uid model caption b64 resp =
      [BotEvent.reply unauthorizedMsg] ∧
    text_handler_events ok st admin uid model user_text resp =
      [BotEvent.reply unauthorizedMsg] ∧
    (∀ p, BotEvent.openaiRequest p ∉
        photo_handler_events ok st admin uid model caption b64 resp) ∧
    (∀ p, BotEvent.openaiRequest p ∉
        text_handler_events ok st admin uid model user_text resp) := by
  have hb : (uid == admin) = false := by
    cases hb : uid == admin
    · rfl
    · simp [authorize, hb] at h
  have ha : DB.is_allowed ok st uid = false := by
    cases ha : DB.is_allowed ok st uid
    · rfl
    · simp [authorize, hb, ha] at h
  refine ⟨?_, ?_, ?_, ?_⟩ <;>
    simp [photo_handler_events, text_handler_events, hb, ha, bne]

/-- Witness for the denied-caller theorem: caller 2 with admin 1 over the
empty table is DENIED, and both handlers reply only the unauthorized
message. -/
theorem denied_caller_never_calls_completion_witness :
    authorize true ⟨[], []⟩ 1 2 = AuthLevel.DENIED ∧
    (photo_handler_events true ⟨[], []⟩ 1 2 "m" none ""
        ⟨200, "", Except.error "e"⟩ = [BotEvent.reply unauthorizedMsg] ∧
      text_handler_events true ⟨[], []⟩ 1 2 "m" "hi"
        ⟨200, "", Except.error "e"⟩ = [BotEvent.reply unauthorizedMsg] ∧
      (∀ p, BotEvent.openaiRequest p ∉
          photo_handler_events true ⟨[], []⟩ 1 2 "m" none ""
            ⟨200, "", Except.error "e"⟩) ∧
      (∀ p, BotEvent.openaiRequest p ∉
          text_handler_events true ⟨[], []⟩ 1 2 "m" "hi"
            ⟨200, "", Except.error "e"⟩)) :=
  ⟨by decide,
   denied_caller_never_calls_completion true ⟨[], []⟩ 1 2 "m" none "hi" ""
     ⟨200, "", Except.error "e"⟩ (by decide)⟩

/-- A concrete decoded completion response whose first choice's message
content is a list of typed parts with two text parts around an image part. -/
def partsJson : CompletionJson :=
  ⟨[⟨MsgContent.parts [ContentPart.text "a", ContentPart.image_url "u",
      ContentPart.text "b"]⟩], "RAWJSON"⟩

/-- C3 counterexample: on a successful response whose content is the parts
list [text "a", image_url, text "b"], both parsers return the stringified
raw JSON, not the newline-joined "a\nb" the claim states — the spec's
join-the-text-parts rule does yield "a\nb", so the code and the claim
disagree on this input. -/
theorem parts_content_not_joined :
    query_openai_with_image ⟨200, "body", Except.ok partsJson⟩ =
      "RAWJSON" ∧
    text_reply_for ⟨200, "body", Except.ok partsJson⟩ = "RAWJSON" ∧
    spec_join_text_parts [ContentPart.text "a", ContentPart.image_url "u",
      ContentPart.text "b"] = "a\nb" ∧
    query_openai_with_image ⟨200, "body", Except.ok partsJson⟩ ≠ "a\nb" :=
  ⟨by decide, by decide, by decide, by decide⟩

/-- C3 amended: when the first choice's message content is a sequence of
typed content parts, the completion client does not join the text parts; it
falls through to the unexpected-shape branch and returns the stringified
raw JSON, in `query_openai_with_image` and in `text_handler` alike. -/
theorem parts_content_falls_back_to_raw (body : String)
    (j : CompletionJson) (ps : List ContentPart) (cs : List Choice)
    (h : j.choices = ⟨MsgContent.parts ps⟩ :: cs) :
    query_openai_with_image ⟨200, body, Except.ok j⟩ = j.raw ∧
    text_reply_for ⟨200, body, Except.ok j⟩ = j.raw := by
  constructor <;> simp [query_openai_with_image, text_reply_for, h]

/-- Witness for the raw-JSON fallback theorem at the concrete parts-list
response. -/
theorem parts_content_falls_back_to_raw_witness :
    partsJson.choices =
      (⟨MsgContent.parts [ContentPart.text "a", ContentPart.image_url "u",
          ContentPart.text "b"]⟩ : Choice) :: [] ∧
    (query_openai_with_image ⟨200, "body", Except.ok partsJson⟩ =
        partsJson.raw ∧
      text_reply_for ⟨200, "body", Except.ok partsJson⟩ = partsJson.raw) :=
  ⟨rfl, parts_content_falls_back_to_raw "body" partsJson
    [ContentPart.text "a", ContentPart.image_url "u", ContentPart.text "b"]
    [] rfl⟩

/-- C4: a completion request answered with a non-success HTTP status makes
`query_openai_with_image` return (not raise — the function is total and
yields a `String` on every input) a reply equal to the error text carrying
the status code and the first 200 characters of the response body; the
status code and the truncated body are substrings of the reply. -/
theorem non_success_status_reply (resp : HttpResponse)
    (h : resp.status ≠ 200) :
    query_openai_with_image resp =
      "Ошибка от OpenAI: " ++ toString resp.status ++
        ". Смотрите логи. Ответ: " ++ resp.bodyText.take 200 ∧
    (∃ a b : String,
        query_openai_with_image resp = a ++ toString resp.status ++ b) ∧
    (∃ a : String,
        query_openai_with_image resp = a ++ resp.bodyText.take 200) := by
  have hb : (resp.status != 200) = true := by
    rw [bne_iff_ne]
    exact h
  have hmain : query_openai_with_image resp =
      "Ошибка от OpenAI: " ++ toString resp.status ++
        ". Смотрите логи. Ответ: " ++ resp.bodyText.take 200 := by
    simp [query_openai_with_image, hb]
  refine ⟨hmain,
    ⟨"Ошибка от OpenAI: ",
      ". Смотрите логи. Ответ: " ++ resp.bodyText.take 200, ?_⟩,
    ⟨"Ошибка от OpenAI: " ++ toString resp.status ++
      ". Смотрите логи. Ответ: ", hmain⟩⟩
  rw [hmain]
  exact str_append_assoc _ _ _

/-- Witness for the non-success reply theorem at status 429 with a
rate-limit body. -/
theorem non_success_status_reply_witness :
    (429 : Nat) ≠ 200 ∧
    (query_openai_with_image ⟨429, "rate limited", Except.error "e"⟩ =
        "Ошибка от OpenAI: " ++ toString (429 : Nat) ++
          ". Смотрите логи. Ответ: " ++ ("rate limited" : String).take 200 ∧
      (∃ a b : String,
          query_openai_with_image ⟨429, "rate limited", Except.error "e"⟩ =
            a ++ toString (429 : Nat) ++ b) ∧
      (∃ a : String,
          query_openai_with_image ⟨429, "rate limited", Except.error "e"⟩ =
            a ++ ("rate limited" : String).take 200)) :=
  ⟨by decide,
   non_success_status_reply ⟨429, "rate limited", Except.error "e"⟩
     (by decide)⟩

/-- C5: the membership check is true exactly when a users row with the
identity exists, and returns false — rather than raising or returning
true — on a run where the storage operation fails, so the gate fails
closed. -/
theorem is_member_row_iff_and_fail_closed (st : DBState) (tid : Int) :
    (DB.is_allowed true st tid = true ↔
      ∃ m ∈ st.users, m.telegram_id = tid) ∧
    DB.is_allowed false st tid = false := by
  constructor
  · simp [DB.is_allowed, usersContains, List.any_eq_true]
  · rfl

/-- C6: membership mutations are idempotent at the users table — adding an
already-present identity succeeds and leaves the table unchanged (only the
audit log grows), adding an absent identity twice yields exactly one row,
and removing an absent identity succeeds and leaves the table unchanged. -/
theorem membership_mutations_idempotent (st : DBState) (tid : Int)
    (u1 u2 : Option String) (n1 n2 : Nat)
    (habsent : usersContains st.users tid = false) :
    (∀ s tid2 u n, usersContains s.users tid2 = true →
        DB.add_user true s tid2 u n =
          Except.ok ⟨s.users, s.logs ++ [⟨tid2, "add"⟩]⟩) ∧
    ∃ st1 st2 st3,
      DB.add_user true st tid u1 n1 = Except.ok st1 ∧
      DB.add_user true st1 tid u2 n2 = Except.ok st2 ∧
      countId st2.users tid = 1 ∧
      st2.users = st1.users ∧
      DB.remove_user true st tid = Except.ok st3 ∧
      st3.users = st.users := by
  constructor
  · intro s tid2 u n hpresent
    simp [DB.add_user, hpresent]
  · have hc1 : usersContains (st.users ++ [⟨tid, u1, n1⟩]) tid = true := by
      simp [usersContains]
    refine ⟨⟨st.users ++ [⟨tid, u1, n1⟩], st.logs ++ [⟨tid, "add"⟩]⟩,
      ⟨st.users ++ [⟨tid, u1, n1⟩],
        (st.logs ++ [⟨tid, "add"⟩]) ++ [⟨tid, "add"⟩]⟩,
      ⟨st.users.filter (fun m => m.telegram_id != tid),
        st.logs ++ [⟨tid, "remove"⟩]⟩, ?_, ?_, ?_, ?_, ?_, ?_⟩
    · simp [DB.add_user, habsent]
    · simp [DB.add_user, hc1]
    · simp [countId, List.filter_append,
        filter_id_nil_of_not_contains habsent]
    · rfl
    · simp [DB.remove_user]
    · exact filter_ne_self_of_not_contains habsent

/-- Witness for the idempotence theorem: identity 7 over the empty table. -/
theorem membership_mutations_idempotent_witness :
    usersContains (⟨[], []⟩ : DBState).users 7 = false ∧
    ((∀ s tid2 u n, usersContains s.users tid2 = true →
        DB.add_user true s tid2 u n =
          Except.ok ⟨s.users, s.logs ++ [⟨tid2, "add"⟩]⟩) ∧
      ∃ st1 st2 st3,
        DB.add_user true ⟨[], []⟩ 7 none 0 = Except.ok st1 ∧
        DB.add_user true st1 7 (some "dup") 1 = Except.ok st2 ∧
        countId st2.users 7 = 1 ∧
        st2.users = st1.users ∧
        DB.remove_user true ⟨[], []⟩ 7 = Except.ok st3 ∧
        st3.users = (⟨[], []⟩ : DBState).users) :=
  ⟨by decide,
   membership_mutations_idempotent ⟨[], []⟩ 7 none (some "dup") 0 1
     (by decide)⟩

/-- C7: an `/add` or `/remove` command from the administrator whose
argument does not parse as an integer replies the format-error message and
leaves the database — users table included — unchanged; the handler is a
total function, so the `ValueError` never escapes it. -/
theorem nonint_argument_is_safe (ok : Bool) (st : DBState) (admin : Int)
    (s : String) (now : Nat) (h : pyParseInt s = none) :
    add_user_handler ok st admin admin [s] now = ⟨st, [addValueErrMsg]⟩ ∧
    remove_user_handler ok st admin admin [s] =
      ⟨st, [removeValueErrMsg]⟩ := by
  constructor <;>
    simp [add_user_handler, remove_user_handler, add_user_body,
      remove_user_body, h]

/-- Witness for the non-integer argument theorem on `/add abc` and
`/remove abc`. -/
theorem nonint_argument_is_safe_witness :
    pyParseInt "abc" = none ∧
    (add_user_handler true ⟨[], []⟩ 1 1 ["abc"] 0 =
        ⟨⟨[], []⟩, [addValueErrMsg]⟩ ∧
      remove_user_handler true ⟨[], []⟩ 1 1 ["abc"] =
        ⟨⟨[], []⟩, [removeValueErrMsg]⟩) :=
  ⟨by decide, nonint_argument_is_safe true ⟨[], []⟩ 1 "abc" 0 (by decide)⟩

/-- C8 counterexample: the text-only request payload built by
`text_handler` has no `temperature` key at all, so it does not carry a
sampling temperature fixed at 1 as the claim states for both variants. -/
theorem text_request_lacks_temperature :
    (text_payload "gpt-4o-mini" "hi").temperature = none ∧
    (text_payload "gpt-4o-mini" "hi").temperature ≠ some 1 :=
  ⟨rfl, by decide⟩

/-- C8 amended: every image request carries temperature 1, the "high"
reasoning-effort hint and the 10000 output-token budget; the text-only
request carries the same hint and budget but omits the temperature field. -/
theorem request_fixed_parameters (model b64 prompt user_text : String) :
    (image_payload model b64 prompt).temperature = some 1 ∧
    (image_payload model b64 prompt).reasoning_effort = some "high" ∧
    (image_payload model b64 prompt).max_completion_tokens = some 10000 ∧
    (text_payload model user_text).reasoning_effort = some "high" ∧
    (text_payload model user_text).max_completion_tokens = some 10000 ∧
    (text_payload model user_text).temperature = none :=
  ⟨rfl, rfl, rfl, rfl, rfl, rfl⟩

/-- C9 counterexample: the administrator invoking `/add 5 Bob` — integer id
plus display name — gets the format-error reply and the users table stays
empty: the two-argument form is rejected, not accepted. -/
theorem add_with_display_name_rejected :
    add_user_handler true ⟨[], []⟩ 1 1 ["5", "Bob"] 0 =
      ⟨⟨[], []⟩, [addFormatMsg]⟩ ∧
    (add_user_handler true ⟨[], []⟩ 1 1 ["5", "Bob"] 0).st.users = [] ∧
    usersContains
      (add_user_handler true ⟨[], []⟩ 1 1 ["5", "Bob"] 0).st.users 5 =
      false :=
  ⟨by decide, by decide, by decide⟩

/-- C9 amended: the add command accepts exactly one argument; any
invocation with two or more arguments (id plus display name) is rejected
with the format-error reply and leaves the database unchanged, while a
single integer argument reaches `DB.add_user` with the display name always
`none`. -/
theorem add_accepts_exactly_one_argument (ok : Bool) (st : DBState)
    (admin : Int) (a b : String) (rest : List String) (now : Nat) (t : Int)
    (hparse : pyParseInt a = some t) :
    add_user_handler ok st admin admin (a :: b :: rest) now =
      ⟨st, [addFormatMsg]⟩ ∧
    ∃ st2, DB.add_user true st t none now = Except.ok st2 ∧
      add_user_handler true st admin admin [a] now =
        ⟨st2, [addSuccessMsg t]⟩ := by
  constructor
  · have hlen : ((a :: b :: rest).length != 1) = true := by
      simp only [List.length_cons, bne_iff_ne, ne_eq]
      omega
    simp [add_user_handler, add_user_body, hlen]
  · refine ⟨⟨(if usersContains st.users t then st.users
        else st.users ++ [⟨t, none, now⟩]), st.logs ++ [⟨t, "add"⟩]⟩,
      ?_, ?_⟩
    · simp [DB.add_user]
    · simp [add_user_handler, add_user_body, hparse, DB.add_user]

/-- Witness for the one-argument theorem on `/add 5 Bob` and `/add 5`. -/
theorem add_accepts_exactly_one_argument_witness :
    pyParseInt "5" = some 5 ∧
    (add_user_handler true ⟨[], []⟩ 1 1 ["5", "Bob"] 0 =
        ⟨⟨[], []⟩, [addFormatMsg]⟩ ∧
      ∃ st2, DB.add_user true ⟨[], []⟩ 5 none 0 = Except.ok st2 ∧
        add_user_handler true ⟨[], []⟩ 1 1 ["5"] 0 =
          ⟨st2, [addSuccessMsg 5]⟩) :=
  ⟨by decide,
   add_accepts_exactly_one_argument true ⟨[], []⟩ 1 "5" "Bob" [] 0 5
     (by decide)⟩

/-- C10: on a run where the storage operation fails, `DB.list_users`
swallows the failure and returns the empty list — indistinguishable from an
empty table — while `DB.add_user` and `DB.remove_user` re-raise the
StorageError; on a successful run it returns the rows ordered by descending
add time. -/
theorem list_swallows_but_mutations_raise (st : DBState) (tid : Int)
    (u : Option String) (now : Nat) :
    DB.list_users false st = [] ∧
    DB.add_user false st tid u now = Except.error "StorageError" ∧
    DB.remove_user false st tid = Except.error "StorageError" ∧
    DB.list_users true st = DB.sortByAddedDesc st.users :=
  ⟨rfl, rfl, rfl, rfl⟩
